import Mathlib

/-!
Verification development for the Vulkan hello-triangle application in
`Vulkan_Tutorial/Main.cpp`. The definitions below are a shallow embedding of
the relevant C++ functions: pure selection helpers become Lean functions,
fallible steps return `Except String` (a thrown `std::runtime_error` becomes
`Except.error` with the same message), and the frame loop becomes an explicit
state-transition function that also emits the trace of Vulkan calls it makes.
Machine integers are modelled as `Nat`; the only place where the 32-bit width
matters is the `0xFFFFFFFF` sentinel in `ChooseSwapExtent`, which is written
out explicitly.
-/

namespace VulkanTut

/-- `(std::numeric_limits<uint32_t>::max)()`, the "any size" sentinel used by
`ChooseSwapExtent`. -/
def U32_MAX : Nat := 4294967295

/-- `VkExtent2D`. -/
structure Extent2D where
  width : Nat
  height : Nat
deriving DecidableEq, Repr

/-- The fields of `VkSurfaceCapabilitiesKHR` that the program reads. -/
structure SurfaceCapabilities where
  minImageCount : Nat
  maxImageCount : Nat
  currentExtent : Extent2D
  minImageExtent : Extent2D
  maxImageExtent : Extent2D
deriving DecidableEq, Repr

/-- `VkFormat` enum values, as raw numbers; only `VK_FORMAT_B8G8R8A8_SRGB`
matters to the program. -/
def VK_FORMAT_B8G8R8A8_SRGB : Nat := 50

/-- `VK_COLOR_SPACE_SRGB_NONLINEAR_KHR` enum value. -/
def VK_COLOR_SPACE_SRGB_NONLINEAR_KHR : Nat := 0

/-- `VkSurfaceFormatKHR`. -/
structure SurfaceFormat where
  format : Nat
  colorSpace : Nat
deriving DecidableEq, Repr

/-- `VkPresentModeKHR`, restricted to the modes the program mentions. -/
inductive PresentMode where
  | immediate
  | fifo
  | fifoRelaxed
  | mailbox
deriving DecidableEq, Repr

/-- `SwapChainSupportDetails` from `Main.cpp`. -/
structure SwapChainSupportDetails where
  capabilities : SurfaceCapabilities
  formats : List SurfaceFormat
  presentModes : List PresentMode
deriving Repr

/-- `ChooseSwapSurfaceFormat` (Main.cpp:688). Scans `availableFormats` for the
first entry with format `VK_FORMAT_B8G8R8A8_SRGB` and color space
`VK_COLOR_SPACE_SRGB_NONLINEAR_KHR`; otherwise falls back to
`availableFormats[0]`. The C++ `operator[]` on an empty vector is undefined
behaviour, modelled here as `none`; on a nonempty list the result is `some`. -/
def ChooseSwapSurfaceFormat (availableFormats : List SurfaceFormat) : Option SurfaceFormat :=
  match availableFormats.find? (fun af =>
      af.format == VK_FORMAT_B8G8R8A8_SRGB && af.colorSpace == VK_COLOR_SPACE_SRGB_NONLINEAR_KHR) with
  | some af => some af
  | none => availableFormats.head?

/-- `ChooseSwapPresentMode` (Main.cpp:711). Scans for
`VK_PRESENT_MODE_MAILBOX_KHR`; otherwise returns `VK_PRESENT_MODE_FIFO_KHR`.
Note the function is total: an empty list simply yields FIFO. -/
def ChooseSwapPresentMode (avaliablePresentModes : List PresentMode) : PresentMode :=
  match avaliablePresentModes.find? (fun m => m == PresentMode.mailbox) with
  | some m => m
  | none => PresentMode.fifo

/-- `std::clamp(v, lo, hi)` on unsigned integers, written exactly as the C++
reference semantics: `v < lo ? lo : (hi < v ? hi : v)`. -/
def stdClamp (v lo hi : Nat) : Nat :=
  if v < lo then lo else if hi < v then hi else v

/-- `ChooseSwapExtent` (Main.cpp:742). If `capabilities.currentExtent.width`
is not `UINT32_MAX`, the current extent is returned verbatim; otherwise the
live framebuffer size (from `glfwGetFramebufferSize`) is clamped per dimension
into `[minImageExtent, maxImageExtent]`. The framebuffer size is passed in as
the two extra arguments. -/
def ChooseSwapExtent (capabilities : SurfaceCapabilities) (fbWidth fbHeight : Nat) : Extent2D :=
  if capabilities.currentExtent.width ≠ U32_MAX then
    capabilities.currentExtent
  else
    { width := stdClamp fbWidth capabilities.minImageExtent.width capabilities.maxImageExtent.width
      height := stdClamp fbHeight capabilities.minImageExtent.height capabilities.maxImageExtent.height }

/-- The image-count computation at the start of `CreateSwapChain`
(Main.cpp:788-793): `minImageCount + 1`, replaced by `maxImageCount` when
`maxImageCount > 0` and the sum exceeds it. -/
def chooseImageCount (capabilities : SurfaceCapabilities) : Nat :=
  let imageCount := capabilities.minImageCount + 1
  if capabilities.maxImageCount > 0 ∧ imageCount > capabilities.maxImageCount then
    capabilities.maxImageCount
  else
    imageCount

/-- `VkSharingMode`. -/
inductive SharingMode where
  | exclusive
  | concurrent
deriving DecidableEq, Repr

/-- The sharing-related fields of `VkSwapchainCreateInfoKHR` that the branch at
Main.cpp:824-837 fills in. -/
structure SwapchainSharingInfo where
  imageSharingMode : SharingMode
  queueFamilyIndexCount : Nat
  pQueueFamilyIndices : List Nat
deriving DecidableEq, Repr

/-- The queue-family branch of `CreateSwapChain` (Main.cpp:821-837), taking
the resolved graphics and present family indices (both `.value()` calls have
already succeeded at Main.cpp:822, so the optionals are plain numbers here). -/
def chooseSharingInfo (graphicsFamily presentFamily : Nat) : SwapchainSharingInfo :=
  if graphicsFamily ≠ presentFamily then
    { imageSharingMode := SharingMode.concurrent
      queueFamilyIndexCount := 2
      pQueueFamilyIndices := [graphicsFamily, presentFamily] }
  else
    { imageSharingMode := SharingMode.exclusive
      queueFamilyIndexCount := 0
      pQueueFamilyIndices := [] }

/-- The swap-chain adequacy part of `IsDeviceSuitable` (Main.cpp:371-391):
`swapChainAdequate` is computed only when the extensions are supported, and the
device is suitable iff the queue families are complete, the extensions are
supported, and both the format list and the present-mode list are nonempty. -/
def IsDeviceSuitable (indiciesComplete extensionsSupported : Bool)
    (swapChainSupport : SwapChainSupportDetails) : Bool :=
  let swapChainAdequate :=
    if extensionsSupported then
      !swapChainSupport.formats.isEmpty && !swapChainSupport.presentModes.isEmpty
    else
      false
  indiciesComplete && extensionsSupported && swapChainAdequate

/-- The data `PickPhysicalDevice` (Main.cpp:336) inspects for one candidate
device. -/
structure PhysicalDeviceInfo where
  indiciesComplete : Bool
  extensionsSupported : Bool
  support : SwapChainSupportDetails
deriving Repr

/-- `PickPhysicalDevice` (Main.cpp:336-365): fails when no device is present,
selects the first suitable device, and fails when none is suitable. The
thrown `std::runtime_error` messages become `Except.error`. -/
def PickPhysicalDevice (devices : List PhysicalDeviceInfo) :
    Except String PhysicalDeviceInfo :=
  if devices.isEmpty then
    Except.error "Failed to find GPUs with Vulkan support!"
  else
    match devices.find? (fun d =>
        IsDeviceSuitable d.indiciesComplete d.extensionsSupported d.support) with
    | some d => Except.ok d
    | none => Except.error "Failed to find a suitable GPU!"

/-- A swap-chain image view, recording the creation parameters filled in by
`CreateImageViews` (Main.cpp:871-906) that are not hard-coded constants. -/
structure ImageView where
  image : Nat
  format : Nat
deriving DecidableEq, Repr

/-- `CreateImageViews` (Main.cpp:871): resizes the view list to
`swapChainImages.size()` and creates one view per image, at the same index,
with the chain's format. -/
def CreateImageViews (swapChainImages : List Nat) (swapChainImageFormat : Nat) :
    List ImageView :=
  swapChainImages.map (fun img => { image := img, format := swapChainImageFormat })

/-- A framebuffer, recording the parameters filled in by `CreateFrameBuffers`
(Main.cpp:1318-1345): the single attachment (the image view at the same index)
and the chain extent. -/
structure Framebuffer where
  attachment : ImageView
  width : Nat
  height : Nat
deriving DecidableEq, Repr

/-- `CreateFrameBuffers` (Main.cpp:1318): resizes the framebuffer list to
`swapChainImageViews.size()` and creates one framebuffer per view, at the same
index, with that view as sole attachment and the chain extent as size. -/
def CreateFrameBuffers (swapChainImageViews : List ImageView) (swapChainExtent : Extent2D) :
    List Framebuffer :=
  swapChainImageViews.map (fun v =>
    { attachment := v, width := swapChainExtent.width, height := swapChainExtent.height })

/-- `const int MAX_FRAMES_IN_FLIGHT = 2` (Main.cpp:112). -/
def MAX_FRAMES_IN_FLIGHT : Nat := 2

/-- A fence; `signaled` mirrors whether `VK_FENCE_CREATE_SIGNALED_BIT` put it
in the signaled state at creation. -/
structure Fence where
  signaled : Bool
deriving DecidableEq, Repr

/-- Whether `vkWaitForFences` on this fence would block: it returns
immediately iff the fence is already signaled. -/
def vkWaitForFencesBlocks (f : Fence) : Bool :=
  !f.signaled

/-- The three parallel arrays produced by `CreateSyncObjects`. -/
structure SyncObjects where
  imageAvailableSemaphores : List Unit
  renderFinishedSemaphores : List Unit
  inFlightFences : List Fence
deriving Repr

/-- `CreateSyncObjects` (Main.cpp:1573-1595): resizes all three arrays to
`MAX_FRAMES_IN_FLIGHT` and creates, for each slot, two semaphores (default
create info) and one fence with `fenceInfo.flags = VK_FENCE_CREATE_SIGNALED_BIT`,
i.e. created already signaled. -/
def CreateSyncObjects : SyncObjects :=
  { imageAvailableSemaphores := List.replicate MAX_FRAMES_IN_FLIGHT ()
    renderFinishedSemaphores := List.replicate MAX_FRAMES_IN_FLIGHT ()
    inFlightFences := List.replicate MAX_FRAMES_IN_FLIGHT { signaled := true } }

/-- `VkResult`, as its raw integer code; `VK_SUCCESS = 0`. -/
structure VkResult where
  code : Int
deriving DecidableEq, Repr

/-- `VK_SUCCESS`. -/
def VK_SUCCESS : VkResult := { code := 0 }

/-- `VK_ERROR_DEVICE_LOST`, one concrete non-success result. -/
def VK_ERROR_DEVICE_LOST : VkResult := { code := -4 }

/-- `VK_ERROR_OUT_OF_DATE_KHR`, the out-of-date acquire/present result. -/
def VK_ERROR_OUT_OF_DATE_KHR : VkResult := { code := -1000001004 }

/-- Identifiers for the per-slot semaphores: `imageAvailableSemaphores[slot]`
and `renderFinishedSemaphores[slot]`. -/
inductive SemId where
  | imageAvailable (slot : Nat)
  | renderFinished (slot : Nat)
deriving DecidableEq, Repr

/-- The two queues the loop talks to. -/
inductive QueueId where
  | graphics
  | present
deriving DecidableEq, Repr

/-- The pipeline stages the program names. -/
inductive PipelineStage where
  | colorAttachmentOutput
deriving DecidableEq, Repr

/-- The fields of `VkSubmitInfo` filled in by `DrawFrame` (Main.cpp:1526-1541);
command buffers are identified by their frame-slot index. -/
structure SubmitInfo where
  waitSemaphores : List SemId
  waitDstStageMask : List PipelineStage
  commandBuffers : List Nat
  signalSemaphores : List SemId
deriving DecidableEq, Repr

/-- One observable Vulkan call made by a `DrawFrame` iteration. -/
inductive FrameEvent where
  | waitForFences (fenceSlot : Nat)
  | resetFences (fenceSlot : Nat)
  | acquireNextImage (signalSemaphore : SemId)
  | resetCommandBuffer (bufferSlot : Nat)
  | recordCommandBuffer (bufferSlot : Nat) (imageIndex : Nat)
  | queueSubmit (queue : QueueId) (info : SubmitInfo) (fenceSlot : Nat)
  | queuePresent (queue : QueueId) (waitSemaphores : List SemId) (imageIndex : Nat)
  | advanceFrame
deriving DecidableEq, Repr

/-- The results the Vulkan driver hands back to one `DrawFrame` iteration,
together with the image index written by `vkAcquireNextImageKHR`. -/
structure DrawEnv where
  acquireResult : VkResult
  acquiredImageIndex : Nat
  beginResult : VkResult
  endResult : VkResult
  submitResult : VkResult
  presentResult : VkResult
deriving DecidableEq, Repr

/-- The mutable state the frame loop touches: `currentFrame` (Main.cpp:113)
and the signaled-state of `inFlightFences`. -/
structure FrameSyncState where
  currentFrame : Nat
  fencesSignaled : List Bool
deriving DecidableEq, Repr

/-- `RecordCommandBuffer` (Main.cpp:1404-1491): `vkBeginCommandBuffer` is
checked and a failure throws "Failed to begin recording command buffer!";
the recorded commands themselves return nothing; `vkEndCommandBuffer` is
checked and a failure throws "Failed to record command buffer!". -/
def RecordCommandBuffer (beginResult endResult : VkResult) : Except String Unit :=
  if beginResult ≠ VK_SUCCESS then
    Except.error "Failed to begin recording command buffer!"
  else if endResult ≠ VK_SUCCESS then
    Except.error "Failed to record command buffer!"
  else
    Except.ok ()

/-- `DrawFrame` (Main.cpp:1496-1568), as a state-transition function that also
returns the trace of Vulkan calls of a completed iteration. Faithful points:
the result of `vkAcquireNextImageKHR` (Main.cpp:1518) is never inspected; the
result of `vkQueueSubmit` is compared against `VK_SUCCESS` and a failure
throws (Main.cpp:1543-1546); the result of `vkQueuePresentKHR` (Main.cpp:1565)
is never inspected; `currentFrame` is advanced by `(currentFrame + 1) %
MAX_FRAMES_IN_FLIGHT` as the last statement (Main.cpp:1567). -/
def DrawFrame (st : FrameSyncState) (env : DrawEnv) :
    Except String (FrameSyncState × List FrameEvent) :=
  let cf := st.currentFrame
  let fencesAfterReset := st.fencesSignaled.set cf false
  let imageIndex := env.acquiredImageIndex
  match RecordCommandBuffer env.beginResult env.endResult with
  | Except.error msg => Except.error msg
  | Except.ok _ =>
    if env.submitResult ≠ VK_SUCCESS then
      Except.error "Failed to submit draw command buffer"
    else
      Except.ok
        ({ currentFrame := (cf + 1) % MAX_FRAMES_IN_FLIGHT
           fencesSignaled := fencesAfterReset },
         [FrameEvent.waitForFences cf,
          FrameEvent.resetFences cf,
          FrameEvent.acquireNextImage (SemId.imageAvailable cf),
          FrameEvent.resetCommandBuffer cf,
          FrameEvent.recordCommandBuffer cf imageIndex,
          FrameEvent.queueSubmit QueueId.graphics
            { waitSemaphores := [SemId.imageAvailable cf]
              waitDstStageMask := [PipelineStage.colorAttachmentOutput]
              commandBuffers := [cf]
              signalSemaphores := [SemId.renderFinished cf] } cf,
          FrameEvent.queuePresent QueueId.present [SemId.renderFinished cf] imageIndex,
          FrameEvent.advanceFrame])

/-- The state at the end of `InitVulkan`: `currentFrame = 0` (its initializer
at Main.cpp:113) and the fences as created by `CreateSyncObjects`. -/
def initialSyncState : FrameSyncState :=
  { currentFrame := 0
    fencesSignaled := CreateSyncObjects.inFlightFences.map Fence.signaled }

/-- The `MainLoop` body (Main.cpp:1649-1659) restricted to its `DrawFrame`
calls: run one iteration per environment, stopping at the first thrown
error (which nothing catches until `main`). -/
def runFrames (st : FrameSyncState) : List DrawEnv → Except String FrameSyncState
  | [] => Except.ok st
  | env :: rest =>
    match DrawFrame st env with
    | Except.error msg => Except.error msg
    | Except.ok out => runFrames out.1 rest

/-- `EXIT_SUCCESS`. -/
def EXIT_SUCCESS : Nat := 0

/-- `EXIT_FAILURE`. -/
def EXIT_FAILURE : Nat := 1

/-- The top-level driver `main` (Main.cpp:1711-1723): a propagated exception
is caught, logged, and turns into `EXIT_FAILURE`; otherwise `EXIT_SUCCESS`. -/
def mainExitCode (run : Except String Unit) : Nat :=
  match run with
  | Except.ok _ => EXIT_SUCCESS
  | Except.error _ => EXIT_FAILURE

theorem stdClamp_lower (v lo hi : Nat) (h : lo ≤ hi) : lo ≤ stdClamp v lo hi := by
  unfold stdClamp
  split_ifs <;> omega

theorem stdClamp_upper (v lo hi : Nat) (h : lo ≤ hi) : stdClamp v lo hi ≤ hi := by
  unfold stdClamp
  split_ifs <;> omega

theorem chooseImageCount_eq (caps : SurfaceCapabilities) :
    chooseImageCount caps =
      if caps.maxImageCount = 0 then caps.minImageCount + 1
      else min (caps.minImageCount + 1) caps.maxImageCount := by
  simp only [chooseImageCount]
  split_ifs <;> omega

/-- C4: the chosen swap-chain image count is `minImageCount + 1`, clamped down
to `maxImageCount` when that bound is nonzero (zero meaning unbounded); for
every capabilities input with `maxImageCount = 0` or
`maxImageCount > minImageCount` the chosen count is at least `minImageCount`
and (when bounded) at most `maxImageCount`; in particular
`minImageCount = 1, maxImageCount = 0` yields 2 and
`minImageCount = 3, maxImageCount = 3` yields 3. -/
theorem c4_chosen_image_count :
    (∀ caps : SurfaceCapabilities,
      chooseImageCount caps =
        (if caps.maxImageCount = 0 then caps.minImageCount + 1
         else min (caps.minImageCount + 1) caps.maxImageCount) ∧
      (caps.maxImageCount = 0 ∨ caps.minImageCount < caps.maxImageCount →
        caps.minImageCount ≤ chooseImageCount caps ∧
        (caps.maxImageCount ≠ 0 → chooseImageCount caps ≤ caps.maxImageCount))) ∧
    chooseImageCount ⟨1, 0, ⟨0, 0⟩, ⟨0, 0⟩, ⟨0, 0⟩⟩ = 2 ∧
    chooseImageCount ⟨3, 3, ⟨0, 0⟩, ⟨0, 0⟩, ⟨0, 0⟩⟩ = 3 := by
  refine ⟨fun caps => ⟨chooseImageCount_eq caps, fun hrange => ?_⟩, by decide, by decide⟩
  rw [chooseImageCount_eq]
  split_ifs <;> refine ⟨?_, fun hmax => ?_⟩ <;> omega

/-- Witness for C4 at `minImageCount = 2, maxImageCount = 5`: the range bounds
hold with both hypotheses discharged concretely. -/
theorem c4_chosen_image_count_witness :
    2 ≤ chooseImageCount ⟨2, 5, ⟨0, 0⟩, ⟨0, 0⟩, ⟨0, 0⟩⟩ ∧
    (5 ≠ 0 → chooseImageCount ⟨2, 5, ⟨0, 0⟩, ⟨0, 0⟩, ⟨0, 0⟩⟩ ≤ 5) :=
  (c4_chosen_image_count.1 ⟨2, 5, ⟨0, 0⟩, ⟨0, 0⟩, ⟨0, 0⟩⟩).2 (Or.inr (by decide))

/-- C5: on Vulkan-valid capabilities (where a sentinel width implies a
sentinel height), `ChooseSwapExtent` returns the current extent verbatim
unless the current extent is the sentinel `(0xFFFFFFFF, 0xFFFFFFFF)`; in the
sentinel case it clamps the live framebuffer size per dimension into
`[minImageExtent, maxImageExtent]`; the `(1024, 768)` scenario resolves to
`(1024, 768)`. -/
theorem c5_choose_swap_extent :
    (∀ (caps : SurfaceCapabilities) (fbWidth fbHeight : Nat),
      (caps.currentExtent.width = U32_MAX → caps.currentExtent.height = U32_MAX) →
      (caps.currentExtent ≠ ⟨U32_MAX, U32_MAX⟩ →
        ChooseSwapExtent caps fbWidth fbHeight = caps.currentExtent) ∧
      (caps.currentExtent = ⟨U32_MAX, U32_MAX⟩ →
        ChooseSwapExtent caps fbWidth fbHeight =
          ⟨stdClamp fbWidth caps.minImageExtent.width caps.maxImageExtent.width,
           stdClamp fbHeight caps.minImageExtent.height caps.maxImageExtent.height⟩)) ∧
    ChooseSwapExtent ⟨0, 0, ⟨U32_MAX, U32_MAX⟩, ⟨1, 1⟩, ⟨4096, 4096⟩⟩ 1024 768 =
      ⟨1024, 768⟩ := by
  constructor
  · intro caps fbW fbH hvalid
    obtain ⟨minC, maxC, ⟨cw, ch⟩, minE, maxE⟩ := caps
    simp only at hvalid
    constructor
    · intro hne
      have hw : cw ≠ U32_MAX := by
        intro hw
        exact hne (by simp [hw, hvalid hw])
      simp [ChooseSwapExtent, hw]
    · intro he
      have hw : cw = U32_MAX := by
        simpa using congrArg Extent2D.width he
      simp [ChooseSwapExtent, hw]
  · decide

/-- Witness for C5: a non-sentinel current extent is returned verbatim, the
validity hypothesis discharged concretely. -/
theorem c5_choose_swap_extent_witness :
    ChooseSwapExtent ⟨0, 0, ⟨800, 600⟩, ⟨1, 1⟩, ⟨4096, 4096⟩⟩ 123 456 = ⟨800, 600⟩ :=
  (c5_choose_swap_extent.1 ⟨0, 0, ⟨800, 600⟩, ⟨1, 1⟩, ⟨4096, 4096⟩⟩ 123 456
    (by decide)).1 (by decide)

/-- C6 counterexample: with valid bounds `min = (1,1) ≤ max = (4096,4096)` and
a (non-sentinel) current extent `(5000, 5000)`, the negotiated extent is
`(5000, 5000)`, outside `[minImageExtent, maxImageExtent]` — the claim that
the result is always within bounds is false, because the non-sentinel branch
returns the current extent without clamping. -/
theorem c6_extent_counterexample :
    ¬ ((ChooseSwapExtent ⟨0, 0, ⟨5000, 5000⟩, ⟨1, 1⟩, ⟨4096, 4096⟩⟩ 800 600).width ≤ 4096 ∧
       (ChooseSwapExtent ⟨0, 0, ⟨5000, 5000⟩, ⟨1, 1⟩, ⟨4096, 4096⟩⟩ 800 600).height ≤ 4096) := by
  decide

/-- C6 amended: when `minImageExtent ≤ maxImageExtent` componentwise and the
current extent width is the "any size" sentinel, the negotiated extent lies
within `[minImageExtent, maxImageExtent]` componentwise; in the non-sentinel
branch the current extent is returned verbatim (so it is in bounds only if
the reported current extent itself is). -/
theorem c6_extent_in_bounds_amended :
    ∀ (caps : SurfaceCapabilities) (fbWidth fbHeight : Nat),
      caps.minImageExtent.width ≤ caps.maxImageExtent.width →
      caps.minImageExtent.height ≤ caps.maxImageExtent.height →
      (caps.currentExtent.width = U32_MAX →
        caps.minImageExtent.width ≤ (ChooseSwapExtent caps fbWidth fbHeight).width ∧
        (ChooseSwapExtent caps fbWidth fbHeight).width ≤ caps.maxImageExtent.width ∧
        caps.minImageExtent.height ≤ (ChooseSwapExtent caps fbWidth fbHeight).height ∧
        (ChooseSwapExtent caps fbWidth fbHeight).height ≤ caps.maxImageExtent.height) ∧
      (caps.currentExtent.width ≠ U32_MAX →
        ChooseSwapExtent caps fbWidth fbHeight = caps.currentExtent) := by
  intro caps fbW fbH hW hH
  constructor
  · intro hs
    simp only [ChooseSwapExtent, hs, ne_eq, not_true_eq_false, if_false]
    exact ⟨stdClamp_lower _ _ _ hW, stdClamp_upper _ _ _ hW,
           stdClamp_lower _ _ _ hH, stdClamp_upper _ _ _ hH⟩
  · intro hs
    simp [ChooseSwapExtent, hs]

/-- Witness for C6 (amended): the sentinel scenario with framebuffer
`(5000, 3000)` stays within `[(1,1), (4096, 4096)]`. -/
theorem c6_extent_in_bounds_amended_witness :
    1 ≤ (ChooseSwapExtent ⟨0, 0, ⟨U32_MAX, U32_MAX⟩, ⟨1, 1⟩, ⟨4096, 4096⟩⟩ 5000 3000).width ∧
    (ChooseSwapExtent ⟨0, 0, ⟨U32_MAX, U32_MAX⟩, ⟨1, 1⟩, ⟨4096, 4096⟩⟩ 5000 3000).width ≤ 4096 ∧
    1 ≤ (ChooseSwapExtent ⟨0, 0, ⟨U32_MAX, U32_MAX⟩, ⟨1, 1⟩, ⟨4096, 4096⟩⟩ 5000 3000).height ∧
    (ChooseSwapExtent ⟨0, 0, ⟨U32_MAX, U32_MAX⟩, ⟨1, 1⟩, ⟨4096, 4096⟩⟩ 5000 3000).height ≤ 4096 :=
  (c6_extent_in_bounds_amended ⟨0, 0, ⟨U32_MAX, U32_MAX⟩, ⟨1, 1⟩, ⟨4096, 4096⟩⟩ 5000 3000
    (by decide) (by decide)).1 (by decide)

/-- C7: distinct resolved graphics and present queue families produce a
concurrent-sharing swapchain listing exactly those two families; equal
families produce exclusive ownership with a zero queue-family count and no
listed families. -/
theorem c7_sharing_mode :
    ∀ graphicsFamily presentFamily : Nat,
      (graphicsFamily ≠ presentFamily →
        chooseSharingInfo graphicsFamily presentFamily =
          ⟨SharingMode.concurrent, 2, [graphicsFamily, presentFamily]⟩) ∧
      (graphicsFamily = presentFamily →
        chooseSharingInfo graphicsFamily presentFamily =
          ⟨SharingMode.exclusive, 0, []⟩) := by
  intro g p
  constructor <;> intro h <;> simp [chooseSharingInfo, h]

/-- Witness for C7: families `(0, 1)` give concurrent mode with `[0, 1]`;
families `(3, 3)` give exclusive mode with no listed families. -/
theorem c7_sharing_mode_witness :
    chooseSharingInfo 0 1 = ⟨SharingMode.concurrent, 2, [0, 1]⟩ ∧
    chooseSharingInfo 3 3 = ⟨SharingMode.exclusive, 0, []⟩ :=
  ⟨(c7_sharing_mode 0 1).1 (by decide), (c7_sharing_mode 3 3).2 rfl⟩

theorem isDeviceSuitable_nonempty (ic es : Bool) (s : SwapChainSupportDetails)
    (h : IsDeviceSuitable ic es s = true) :
    s.formats ≠ [] ∧ s.presentModes ≠ [] := by
  cases ic <;> cases es <;>
    cases hf : s.formats <;> cases hp : s.presentModes <;>
    simp_all [IsDeviceSuitable]

/-- C8 counterexample: the negotiators raise no error on empty input lists:
an empty present-mode list yields FIFO (a normal, successful result), and an
empty format list is an out-of-bounds `availableFormats[0]` access (modelled
`none`), not a raised `SurfaceUnsupported` error. -/
theorem c8_negotiator_counterexample :
    ChooseSwapPresentMode [] = PresentMode.fifo ∧
    ChooseSwapSurfaceFormat [] = none :=
  ⟨rfl, rfl⟩

/-- C8 amended: the emptiness of the format and present-mode lists is
pre-checked by the suitability gate — `IsDeviceSuitable` accepts only devices
with both lists nonempty, and when every candidate has an empty format or
present-mode list `PickPhysicalDevice` aborts bring-up with an error before
any downstream object is built; the negotiators themselves raise no
`SurfaceUnsupported` error, and on a nonempty format list the format
negotiator always returns an entry. -/
theorem c8_suitability_gate_amended :
    (∀ (ic es : Bool) (s : SwapChainSupportDetails),
      IsDeviceSuitable ic es s = true → s.formats ≠ [] ∧ s.presentModes ≠ []) ∧
    (∀ devices : List PhysicalDeviceInfo,
      (∀ d ∈ devices, d.support.formats = [] ∨ d.support.presentModes = []) →
      ∃ msg, PickPhysicalDevice devices = Except.error msg) ∧
    (∀ availableFormats : List SurfaceFormat, availableFormats ≠ [] →
      ∃ f, ChooseSwapSurfaceFormat availableFormats = some f) := by
  refine ⟨isDeviceSuitable_nonempty, ?_, ?_⟩
  · intro devices hall
    unfold PickPhysicalDevice
    split_ifs with hempty
    · exact ⟨_, rfl⟩
    · have hfind : devices.find? (fun d =>
          IsDeviceSuitable d.indiciesComplete d.extensionsSupported d.support) = none := by
        rw [List.find?_eq_none]
        intro d hd hsuit
        have := isDeviceSuitable_nonempty _ _ _ hsuit
        rcases hall d hd with h | h
        · exact this.1 h
        · exact this.2 h
      rw [hfind]
      exact ⟨_, rfl⟩
  · intro fmts hne
    unfold ChooseSwapSurfaceFormat
    cases hfind : fmts.find? (fun af =>
        af.format == VK_FORMAT_B8G8R8A8_SRGB &&
        af.colorSpace == VK_COLOR_SPACE_SRGB_NONLINEAR_KHR) with
    | some af => exact ⟨af, rfl⟩
    | none =>
      cases fmts with
      | nil => exact absurd rfl hne
      | cons a l => exact ⟨a, rfl⟩

/-- Witness for C8 (amended): a suitable device has nonempty lists; a single
device with no formats makes bring-up abort; a one-entry non-preferred format
list yields that entry. -/
theorem c8_suitability_gate_amended_witness :
    (([⟨50, 0⟩] : List SurfaceFormat) ≠ [] ∧ ([PresentMode.fifo] : List PresentMode) ≠ []) ∧
    (∃ msg, PickPhysicalDevice
        [⟨true, true, ⟨⟨0, 0, ⟨0, 0⟩, ⟨0, 0⟩, ⟨0, 0⟩⟩, [], [PresentMode.fifo]⟩⟩] =
      Except.error msg) ∧
    (∃ f, ChooseSwapSurfaceFormat [⟨3, 7⟩] = some f) :=
  ⟨c8_suitability_gate_amended.1 true true
      ⟨⟨0, 0, ⟨0, 0⟩, ⟨0, 0⟩, ⟨0, 0⟩⟩, [⟨50, 0⟩], [PresentMode.fifo]⟩ (by decide),
   c8_suitability_gate_amended.2.1
      [⟨true, true, ⟨⟨0, 0, ⟨0, 0⟩, ⟨0, 0⟩, ⟨0, 0⟩⟩, [], [PresentMode.fifo]⟩⟩]
      (by intro d hd; simp_all),
   c8_suitability_gate_amended.2.2 [⟨3, 7⟩] (by decide)⟩

/-- C9: one image view is created per retrieved swap-chain image and one
framebuffer per view, indexed identically, so for every chain size at least 1
the three lengths coincide; moreover the entry at each index is built from the
image (resp. view) at the same index. -/
theorem c9_counts_equal :
    ∀ (swapChainImages : List Nat) (swapChainImageFormat : Nat) (swapChainExtent : Extent2D),
      1 ≤ swapChainImages.length →
      (CreateImageViews swapChainImages swapChainImageFormat).length =
        swapChainImages.length ∧
      (CreateFrameBuffers (CreateImageViews swapChainImages swapChainImageFormat)
          swapChainExtent).length =
        (CreateImageViews swapChainImages swapChainImageFormat).length ∧
      ∀ i : Nat,
        (CreateImageViews swapChainImages swapChainImageFormat)[i]? =
          (swapChainImages[i]?).map
            (fun img => { image := img, format := swapChainImageFormat }) ∧
        (CreateFrameBuffers (CreateImageViews swapChainImages swapChainImageFormat)
            swapChainExtent)[i]? =
          ((CreateImageViews swapChainImages swapChainImageFormat)[i]?).map
            (fun v => { attachment := v, width := swapChainExtent.width
                        height := swapChainExtent.height }) := by
  intro images fmt extent _
  refine ⟨by simp [CreateImageViews], by simp [CreateFrameBuffers], fun i => ⟨?_, ?_⟩⟩
  · simp [CreateImageViews, List.getElem?_map]
  · simp [CreateFrameBuffers, List.getElem?_map]

/-- Witness for C9 on a concrete three-image chain. -/
theorem c9_counts_equal_witness :
    (CreateImageViews [10, 11, 12] 50).length = ([10, 11, 12] : List Nat).length ∧
    (CreateFrameBuffers (CreateImageViews [10, 11, 12] 50) ⟨800, 600⟩).length =
      (CreateImageViews [10, 11, 12] 50).length ∧
    ∀ i : Nat,
      (CreateImageViews [10, 11, 12] 50)[i]? =
        (([10, 11, 12] : List Nat)[i]?).map (fun img => { image := img, format := 50 }) ∧
      (CreateFrameBuffers (CreateImageViews [10, 11, 12] 50) ⟨800, 600⟩)[i]? =
        ((CreateImageViews [10, 11, 12] 50)[i]?).map
          (fun v => { attachment := v, width := (⟨800, 600⟩ : Extent2D).width
                      height := (⟨800, 600⟩ : Extent2D).height }) :=
  c9_counts_equal [10, 11, 12] 50 ⟨800, 600⟩ (by decide)

theorem drawFrame_ok_currentFrame (st : FrameSyncState) (env : DrawEnv)
    (out : FrameSyncState × List FrameEvent) (h : DrawFrame st env = Except.ok out) :
    out.1.currentFrame = (st.currentFrame + 1) % MAX_FRAMES_IN_FLIGHT := by
  unfold DrawFrame at h
  split at h
  · exact absurd h (by simp)
  · split at h
    · exact absurd h (by simp)
    · injection h with h'
      subst h'
      rfl

theorem runFrames_currentFrame :
    ∀ (envs : List DrawEnv) (st st' : FrameSyncState),
      st.currentFrame < MAX_FRAMES_IN_FLIGHT →
      runFrames st envs = Except.ok st' →
      st'.currentFrame = (st.currentFrame + envs.length) % MAX_FRAMES_IN_FLIGHT := by
  intro envs
  induction envs with
  | nil =>
    intro st st' hlt h
    unfold runFrames at h
    injection h with h'
    subst h'
    simp [MAX_FRAMES_IN_FLIGHT] at hlt ⊢
    omega
  | cons env rest ih =>
    intro st st' hlt h
    unfold runFrames at h
    cases hdf : DrawFrame st env with
    | error msg => rw [hdf] at h; exact absurd h (by simp)
    | ok out =>
      rw [hdf] at h
      have hcf := drawFrame_ok_currentFrame st env out hdf
      have hlt' : out.1.currentFrame < MAX_FRAMES_IN_FLIGHT := by
        rw [hcf]
        exact Nat.mod_lt _ (by decide)
      have hrest := ih out.1 st' hlt' h
      rw [hrest, hcf]
      simp only [List.length_cons, MAX_FRAMES_IN_FLIGHT]
      omega

theorem drawFrame_success_eq (st : FrameSyncState) (env : DrawEnv)
    (hb : env.beginResult = VK_SUCCESS) (he : env.endResult = VK_SUCCESS)
    (hs : env.submitResult = VK_SUCCESS) :
    DrawFrame st env = Except.ok
      ({ currentFrame := (st.currentFrame + 1) % MAX_FRAMES_IN_FLIGHT
         fencesSignaled := st.fencesSignaled.set st.currentFrame false },
       [FrameEvent.waitForFences st.currentFrame,
        FrameEvent.resetFences st.currentFrame,
        FrameEvent.acquireNextImage (SemId.imageAvailable st.currentFrame),
        FrameEvent.resetCommandBuffer st.currentFrame,
        FrameEvent.recordCommandBuffer st.currentFrame env.acquiredImageIndex,
        FrameEvent.queueSubmit QueueId.graphics
          { waitSemaphores := [SemId.imageAvailable st.currentFrame]
            waitDstStageMask := [PipelineStage.colorAttachmentOutput]
            commandBuffers := [st.currentFrame]
            signalSemaphores := [SemId.renderFinished st.currentFrame] }
          st.currentFrame,
        FrameEvent.queuePresent QueueId.present
          [SemId.renderFinished st.currentFrame] env.acquiredImageIndex,
        FrameEvent.advanceFrame]) := by
  simp [DrawFrame, RecordCommandBuffer, hb, he, hs]

/-- C1: a completed `DrawFrame` iteration performs exactly, and in this
order: wait on the fence of slot `currentFrame`, reset that fence, acquire an
image signaling the slot's image-available semaphore, reset and re-record the
slot's command buffer for the acquired image index, submit that one command
buffer to the graphics queue waiting on the slot's image-available semaphore
at the color-attachment-output stage and signaling the slot's render-finished
semaphore plus the slot's fence, present the acquired image index on the
present queue waiting on the render-finished semaphore, and advance the frame
cursor. -/
theorem c1_draw_frame_steps :
    ∀ (st : FrameSyncState) (env : DrawEnv),
      env.beginResult = VK_SUCCESS → env.endResult = VK_SUCCESS →
      env.submitResult = VK_SUCCESS →
      DrawFrame st env = Except.ok
        ({ currentFrame := (st.currentFrame + 1) % MAX_FRAMES_IN_FLIGHT
           fencesSignaled := st.fencesSignaled.set st.currentFrame false },
         [FrameEvent.waitForFences st.currentFrame,
          FrameEvent.resetFences st.currentFrame,
          FrameEvent.acquireNextImage (SemId.imageAvailable st.currentFrame),
          FrameEvent.resetCommandBuffer st.currentFrame,
          FrameEvent.recordCommandBuffer st.currentFrame env.acquiredImageIndex,
          FrameEvent.queueSubmit QueueId.graphics
            { waitSemaphores := [SemId.imageAvailable st.currentFrame]
              waitDstStageMask := [PipelineStage.colorAttachmentOutput]
              commandBuffers := [st.currentFrame]
              signalSemaphores := [SemId.renderFinished st.currentFrame] }
            st.currentFrame,
          FrameEvent.queuePresent QueueId.present
            [SemId.renderFinished st.currentFrame] env.acquiredImageIndex,
          FrameEvent.advanceFrame]) :=
  fun st env hb he hs => drawFrame_success_eq st env hb he hs

/-- Witness for C1: one concrete successful iteration from slot 0, image 1. -/
theorem c1_draw_frame_steps_witness :
    DrawFrame ⟨0, [true, true]⟩ ⟨VK_SUCCESS, 1, VK_SUCCESS, VK_SUCCESS, VK_SUCCESS, VK_SUCCESS⟩ =
      Except.ok
        (⟨1, [false, true]⟩,
         [FrameEvent.waitForFences 0,
          FrameEvent.resetFences 0,
          FrameEvent.acquireNextImage (SemId.imageAvailable 0),
          FrameEvent.resetCommandBuffer 0,
          FrameEvent.recordCommandBuffer 0 1,
          FrameEvent.queueSubmit QueueId.graphics
            ⟨[SemId.imageAvailable 0], [PipelineStage.colorAttachmentOutput], [0],
             [SemId.renderFinished 0]⟩ 0,
          FrameEvent.queuePresent QueueId.present [SemId.renderFinished 0] 1,
          FrameEvent.advanceFrame]) :=
  c1_draw_frame_steps ⟨0, [true, true]⟩
    ⟨VK_SUCCESS, 1, VK_SUCCESS, VK_SUCCESS, VK_SUCCESS, VK_SUCCESS⟩ rfl rfl rfl

/-- C2: the frame cursor starts at 0; every completed `DrawFrame` advances it
by exactly 1 modulo `MAX_FRAMES_IN_FLIGHT = 2` (the only place it changes);
after any number `n` of completed iterations it equals
`n % MAX_FRAMES_IN_FLIGHT`, hence lies in `[0, MAX_FRAMES_IN_FLIGHT)`; and it
never repeats within a cycle of length `MAX_FRAMES_IN_FLIGHT` (consecutive
values are always distinct). -/
theorem c2_frame_cursor :
    initialSyncState.currentFrame = 0 ∧
    (∀ (st : FrameSyncState) (env : DrawEnv) (out : FrameSyncState × List FrameEvent),
      DrawFrame st env = Except.ok out →
      out.1.currentFrame = (st.currentFrame + 1) % MAX_FRAMES_IN_FLIGHT) ∧
    (∀ (envs : List DrawEnv) (st' : FrameSyncState),
      runFrames initialSyncState envs = Except.ok st' →
      st'.currentFrame = envs.length % MAX_FRAMES_IN_FLIGHT ∧
      st'.currentFrame < MAX_FRAMES_IN_FLIGHT) ∧
    (∀ n : Nat, n % MAX_FRAMES_IN_FLIGHT ≠ (n + 1) % MAX_FRAMES_IN_FLIGHT) := by
  refine ⟨rfl, drawFrame_ok_currentFrame, ?_, ?_⟩
  · intro envs st' h
    have := runFrames_currentFrame envs initialSyncState st' (by decide) h
    constructor
    · simpa [initialSyncState] using this
    · rw [this]
      exact Nat.mod_lt _ (by decide)
  · intro n
    simp only [MAX_FRAMES_IN_FLIGHT]
    omega

/-- Witness for C2: three concrete successful iterations end on cursor
`3 % 2 = 1`, inside `[0, MAX_FRAMES_IN_FLIGHT)`. -/
theorem c2_frame_cursor_witness :
    (⟨1, [false, false]⟩ : FrameSyncState).currentFrame = 3 % MAX_FRAMES_IN_FLIGHT ∧
    (⟨1, [false, false]⟩ : FrameSyncState).currentFrame < MAX_FRAMES_IN_FLIGHT :=
  c2_frame_cursor.2.2.1
    [⟨VK_SUCCESS, 0, VK_SUCCESS, VK_SUCCESS, VK_SUCCESS, VK_SUCCESS⟩,
     ⟨VK_SUCCESS, 0, VK_SUCCESS, VK_SUCCESS, VK_SUCCESS, VK_SUCCESS⟩,
     ⟨VK_SUCCESS, 0, VK_SUCCESS, VK_SUCCESS, VK_SUCCESS, VK_SUCCESS⟩]
    ⟨1, [false, false]⟩ rfl

/-- C3 counterexample: with non-success results from both acquire
(`VK_ERROR_DEVICE_LOST`) and present, but a successful submit, the iteration
completes normally — no error is propagated (the results of
`vkAcquireNextImageKHR` and `vkQueuePresentKHR` are never inspected) and the
process would exit with `EXIT_SUCCESS`, contradicting the claim that acquire
and present failures are fatal. -/
theorem c3_fatal_counterexample :
    (DrawFrame ⟨0, [true, true]⟩
        ⟨VK_ERROR_DEVICE_LOST, 0, VK_SUCCESS, VK_SUCCESS, VK_SUCCESS,
         VK_ERROR_DEVICE_LOST⟩).isOk = true ∧
    mainExitCode
      (Except.map (fun _ => ())
        (DrawFrame ⟨0, [true, true]⟩
          ⟨VK_ERROR_DEVICE_LOST, 0, VK_SUCCESS, VK_SUCCESS, VK_SUCCESS,
           VK_ERROR_DEVICE_LOST⟩)) = EXIT_SUCCESS :=
  ⟨rfl, rfl⟩

/-- C3 amended: only the submit step's failure is fatal — a non-success
`vkQueueSubmit` result makes `DrawFrame` throw, the error propagates uncaught
to `main`, and the process exits with the nonzero `EXIT_FAILURE`; the results
of the acquire and present steps are never inspected, so the iteration
completes normally whatever they are (no retry, but also no propagation). -/
theorem c3_submit_failure_fatal_amended :
    ∀ (st : FrameSyncState) (env : DrawEnv),
      env.beginResult = VK_SUCCESS → env.endResult = VK_SUCCESS →
      (env.submitResult ≠ VK_SUCCESS →
        DrawFrame st env = Except.error "Failed to submit draw command buffer" ∧
        mainExitCode (Except.error "Failed to submit draw command buffer") = EXIT_FAILURE ∧
        EXIT_FAILURE ≠ EXIT_SUCCESS) ∧
      (env.submitResult = VK_SUCCESS →
        ∃ out, DrawFrame st env = Except.ok out) := by
  intro st env hb he
  constructor
  · intro hs
    refine ⟨?_, rfl, by decide⟩
    simp [DrawFrame, RecordCommandBuffer, hb, he, hs]
  · intro hs
    exact ⟨_, drawFrame_success_eq st env hb he hs⟩

/-- Witness for C3 (amended): a concrete failed submit makes the iteration
throw and the process exit nonzero. -/
theorem c3_submit_failure_fatal_amended_witness :
    DrawFrame ⟨0, [true, true]⟩
        ⟨VK_SUCCESS, 0, VK_SUCCESS, VK_SUCCESS, VK_ERROR_DEVICE_LOST, VK_SUCCESS⟩ =
      Except.error "Failed to submit draw command buffer" ∧
    mainExitCode (Except.error "Failed to submit draw command buffer") = EXIT_FAILURE ∧
    EXIT_FAILURE ≠ EXIT_SUCCESS :=
  (c3_submit_failure_fatal_amended ⟨0, [true, true]⟩
      ⟨VK_SUCCESS, 0, VK_SUCCESS, VK_SUCCESS, VK_ERROR_DEVICE_LOST, VK_SUCCESS⟩
      rfl rfl).1 (by decide)

/-- C10: `CreateSyncObjects` creates all `MAX_FRAMES_IN_FLIGHT = 2` per-slot
fences in the signaled state (`VK_FENCE_CREATE_SIGNALED_BIT`), so for each
frame slot the fence found at loop start is already signaled and the very
first `vkWaitForFences` on it returns immediately without any prior GPU
submission — the first cycle through each slot cannot block on its own
fence. -/
theorem c10_fences_created_signaled :
    CreateSyncObjects.inFlightFences.length = MAX_FRAMES_IN_FLIGHT ∧
    (∀ i : Nat, i < MAX_FRAMES_IN_FLIGHT →
      ∃ f, CreateSyncObjects.inFlightFences[i]? = some f ∧ f.signaled = true ∧
        vkWaitForFencesBlocks f = false) ∧
    (∀ i : Nat, i < MAX_FRAMES_IN_FLIGHT →
      initialSyncState.fencesSignaled[i]? = some true) := by
  refine ⟨rfl, ?_, ?_⟩ <;> intro i hi <;>
    simp only [MAX_FRAMES_IN_FLIGHT] at hi <;>
    interval_cases i
  · exact ⟨⟨true⟩, rfl, rfl, rfl⟩
  · exact ⟨⟨true⟩, rfl, rfl, rfl⟩
  · rfl
  · rfl

/-- Witness for C10 at slot 0. -/
theorem c10_fences_created_signaled_witness :
    ∃ f, CreateSyncObjects.inFlightFences[0]? = some f ∧ f.signaled = true ∧
      vkWaitForFencesBlocks f = false :=
  c10_fences_created_signaled.2.1 0 (by decide)

end VulkanTut
